import Mathlib

/-!
# SmartBiz natural-language-query bridge: a verification development

This file embeds, shallowly, the pieces of the SmartBiz repository that the
query-bridge specification talks about:

* `src/frontend/src/services/api.js` — the frontend execute operation
  `runSmartSQL`, its shared fetch wrapper `handleRequest`, the option builder
  `createPostOptions`, and the validator `isValidStringInput`;
* the Cloudflare-style worker `handleQuery` (natural-language queries via the
  `env.SSQL` binding, raw-SQL fallback via the `env.DB` D1 database);
* the dashboard handlers `loadMetric` and `handleQuerySubmit` that substitute
  demo data when a provider call fails.

JavaScript values that can flow through these functions are modelled by a
JSON-like inductive `JVal` (numbers as rationals; the sources do no numeric
arithmetic on the values the claims mention, so only identity of numbers
matters).  JavaScript exceptions are explicit: a computation that can throw
lives in `Except String`, a `try`/`catch` is a `match` on that `Except`, and
"the function never throws" is the theorem that its result is always `.ok`.
-/

namespace SmartBiz

/-! ### JavaScript string primitives

`String.trim`, `toUpperCase`, `startsWith` and `includes` are modelled
structurally over the character list, so that every definition in this file
evaluates inside the kernel on concrete inputs. -/

/-- JavaScript `s.trim()`: strip leading and trailing whitespace. -/
def jsTrim (s : String) : String :=
  String.mk (((s.toList.dropWhile Char.isWhitespace).reverse.dropWhile
    Char.isWhitespace).reverse)

/-- JavaScript `s.toUpperCase()` (ASCII case map, as the worker only compares
against ASCII keywords). -/
def jsToUpper (s : String) : String := String.mk (s.toList.map Char.toUpper)

/-- JavaScript `s.startsWith(p)`. -/
def strStartsWith (s p : String) : Bool := p.toList.isPrefixOf s.toList

/-- Occurrence of `sub` as a contiguous sublist. -/
def sublistSearch (sub : List Char) : List Char → Bool
  | [] => sub.isEmpty
  | c :: rest => sub.isPrefixOf (c :: rest) || sublistSearch sub rest

/-- JavaScript `s.includes(p)`: `p` occurs as a substring of `s`. -/
def includesStr (s p : String) : Bool := sublistSearch p.toList s.toList

/-- A JSON-like JavaScript value.  Object fields keep their textual order. -/
inductive JVal where
  | jnull : JVal
  | jbool : Bool → JVal
  | jnum : Rat → JVal
  | jstr : String → JVal
  | jarr : List JVal → JVal
  | jobj : List (String × JVal) → JVal

/-- First-match field lookup in an object's field list. -/
def lookupField : List (String × JVal) → String → Option JVal
  | [], _ => none
  | (k, v) :: rest, key => if k = key then some v else lookupField rest key

/-- JavaScript truthiness of a value. -/
def truthy : JVal → Bool
  | .jnull => false
  | .jbool b => b
  | .jnum q => decide (q ≠ 0)
  | .jstr s => decide (s ≠ "")
  | .jarr _ => true
  | .jobj _ => true

/-- JavaScript truthiness where `none` stands for `undefined`. -/
def truthyO : Option JVal → Bool
  | none => false
  | some v => truthy v

/-- JavaScript `x || d`: the left value when truthy, otherwise the default.
`none` stands for `undefined`. -/
def jsOr (x : Option JVal) (d : JVal) : JVal :=
  match x with
  | some v => if truthy v then v else d
  | none => d

/-- JavaScript `x ?? d`: the default exactly when the value is null or
undefined. -/
def jsNullish (x : Option JVal) (d : JVal) : JVal :=
  match x with
  | some .jnull => d
  | some v => v
  | none => d

/-- JavaScript property access `v[k]`: throws a TypeError on `null`, yields
the field (or `undefined`, i.e. `none`) on everything else. -/
def getFieldE : JVal → String → Except String (Option JVal)
  | .jnull, _ => .error "Cannot read properties of null"
  | .jobj fs, k => .ok (lookupField fs k)
  | _, _ => .ok none

/-- Does an object value carry the named field? -/
def hasField (v : JVal) (k : String) : Bool :=
  match v with
  | .jobj fs => (lookupField fs k).isSome
  | _ => false

/-- The `error` field of an object result, `none` on anything else. -/
def errField (v : JVal) : Option JVal :=
  match v with
  | .jobj fs => lookupField fs "error"
  | _ => none

/-! ## The frontend service (`src/frontend/src/services/api.js`) -/

/-- The body a `fetch` response yields: `response.json()` either rejects with
a parse error or resolves to a value. -/
inductive BodyOutcome where
  | parseErr : String → BodyOutcome
  | parsed : JVal → BodyOutcome

/-- The outcome of one `fetch` call: the promise rejects (network failure,
DNS failure, timeout), or a response with an HTTP status arrives whose body
then behaves as a `BodyOutcome`. -/
inductive FetchOutcome where
  | throwErr : String → FetchOutcome
  | resp : Nat → BodyOutcome → FetchOutcome

/-- `response.ok` — the HTTP status is in the 2xx success range. -/
def respOk (status : Nat) : Bool := 200 ≤ status && status < 300

/-- `await response.json()` with the rejection as an explicit exception. -/
def parseJsonE : BodyOutcome → Except String JVal
  | .parseErr m => .error m
  | .parsed v => .ok v

/-- The `{error: msg}` object the frontend helpers build. -/
def errObj (msg : String) : JVal := .jobj [("error", .jstr msg)]

/-- The `try`-block of `handleRequest` (api.js): await the fetch; on a
non-2xx status parse the body and return `{error: data.error || 'Request
failed'}`; on a 2xx status return the parsed body verbatim.  Every `await`
and property access that can throw does so in `Except`. -/
def handleRequestTry (o : FetchOutcome) : Except String JVal :=
  match o with
  | .throwErr m => .error m
  | .resp st body =>
    if respOk st then parseJsonE body
    else do
      let data ← parseJsonE body
      let e ← getFieldE data "error"
      .ok (.jobj [("error", jsOr e (.jstr "Request failed"))])

/-- `handleRequest` (api.js): the `try`-block above with its `catch`, which
turns any thrown error into `{error: "Network error: <message>"}`. -/
def handleRequest (o : FetchOutcome) : JVal :=
  match handleRequestTry o with
  | .ok v => v
  | .error m => errObj ("Network error: " ++ m)

/-- A JavaScript argument value as seen by `typeof`: some `JVal`, or
`undefined`. -/
inductive JSVal where
  | jv : JVal → JSVal
  | undef : JSVal

/-- `isValidStringInput` (api.js): the input is a string and its trimmed form
is non-empty. -/
def isValidStringInput : JSVal → Bool
  | .jv (.jstr s) => decide (0 < (jsTrim s).length)
  | _ => false

/-- The options object `createPostOptions` (api.js) builds: method POST, a
Content-Type header, and the JSON body. -/
structure FetchOptions where
  method : String
  headers : List (String × String)
  body : JVal

/-- `createPostOptions` (api.js). -/
def createPostOptions (body : JVal) : FetchOptions :=
  { method := "POST"
    headers := [("Content-Type", "application/json")]
    body := body }

/-- What one call to `runSmartSQL` produces: the value its promise resolves
to (or, were the code to let one escape, the exception it rejects with), and
how many outbound `fetch` calls were made. -/
structure ExecOutcome where
  result : Except String JVal
  fetchCount : Nat

/-- `runSmartSQL` (api.js): validate the query, returning
`{error: 'Query cannot be empty'}` with no network call on failure; otherwise
perform exactly one fetch through `handleRequest`.  The parameter `o` is the
behaviour of that single fetch. -/
def runSmartSQL (q : JSVal) (o : FetchOutcome) : ExecOutcome :=
  if isValidStringInput q then
    { result := .ok (handleRequest o), fetchCount := 1 }
  else
    { result := .ok (errObj "Query cannot be empty"), fetchCount := 0 }

/-! ## The query worker (`handleQuery`, Cloudflare-style, `src/unnamed/part_012`) -/

/-- Which backend a call ends up using. -/
inductive ProviderSelection where
  | Primary : ProviderSelection
  | Secondary : ProviderSelection
  | Unconfigured : ProviderSelection
deriving DecidableEq

/-- The outcome of one call to an external binding (`env.SSQL.run` or a D1
`stmt.all()`): it resolves to a value or rejects with a message. -/
inductive CallOutcome where
  | ok : JVal → CallOutcome
  | err : String → CallOutcome

/-- The worker environment: the optional SmartSQL binding and the optional D1
database, each modelled as an oracle from the query text to the call's
outcome. -/
structure WorkerEnv where
  ssql : Option (String → CallOutcome)
  db : Option (String → CallOutcome)

/-- A worker `Response`: HTTP status and the JSON body (CORS headers elided —
no claim mentions them). -/
structure WorkerResponse where
  status : Nat
  body : JVal

/-- The worker's raw-SQL keyword list. -/
def sqlKeywords : List String :=
  ["SELECT", "INSERT", "UPDATE", "DELETE", "CREATE", "DROP", "ALTER", "PRAGMA"]

/-- The worker's check `sqlKeywords.some(k => trimmedQuery.toUpperCase().trim().startsWith(k))`. -/
def isRawSQL (tq : String) : Bool :=
  sqlKeywords.any (fun k => strStartsWith (jsTrim (jsToUpper tq)) k)

/-- The `metadata` object of a worker success body.  The wall-clock fields
`executionTimeMs` and `timestamp` are elided (real time); only the field's
presence matters to the claims, never its contents. -/
def metaObj (tq : String) : JVal := .jobj [("query", .jstr tq)]

/-- The SmartSQL branch of the worker's inner `try`: run the binding, then
build `{success:true, sql: result.sql || trimmedQuery, results:
result.results || result.rows || [], metadata}` with status 200.  A rejection
of the binding call or a property access on a null result throws. -/
def runSSQLBranch (run : String → CallOutcome) (tq : String) :
    Except String WorkerResponse :=
  match run tq with
  | .err m => .error m
  | .ok res => do
    let sqlF ← getFieldE res "sql"
    let resultsF ← getFieldE res "results"
    let rowsF ← getFieldE res "rows"
    .ok ⟨200, .jobj [("success", .jbool true),
                     ("sql", jsOr sqlF (.jstr tq)),
                     ("results", jsOr resultsF (jsOr rowsF (.jarr []))),
                     ("metadata", metaObj tq)]⟩

/-- The D1 branch of the worker's inner `try`: prepare and run the statement,
then build `{success:true, sql: trimmedQuery, results: queryResult.results ||
[], metadata}` with status 200. -/
def runD1Branch (dbrun : String → CallOutcome) (tq : String) :
    Except String WorkerResponse :=
  match dbrun tq with
  | .err m => .error m
  | .ok qr => do
    let rF ← getFieldE qr "results"
    .ok ⟨200, .jobj [("success", .jbool true),
                     ("sql", .jstr tq),
                     ("results", jsOr rF (.jarr [])),
                     ("metadata", metaObj tq)]⟩

/-- The worker's 400 response when no SmartSQL binding is configured and the
query is not raw SQL. -/
def notConfiguredResp : WorkerResponse :=
  ⟨400, .jobj [("success", .jbool false),
    ("error", .jstr "SmartSQL binding not configured. Natural language queries require SmartSQL."),
    ("hint", .jstr "For raw SQL, start your query with SELECT, INSERT, UPDATE, etc.")]⟩

/-- The body of the worker's inner `try`: SmartSQL binding when present, else
the D1 fallback for raw-SQL-looking queries when a database is bound, else
the not-configured 400. -/
def innerTry (env : WorkerEnv) (tq : String) : Except String WorkerResponse :=
  match env.ssql with
  | some run => runSSQLBranch run tq
  | none =>
    match env.db with
    | some dbrun =>
      if isRawSQL tq then runD1Branch dbrun tq else .ok notConfiguredResp
    | none => .ok notConfiguredResp

/-- The inner `try`/`catch` of `handleQuery`: any query-execution error
becomes a 500 with `{success:false, error: message || 'Query execution
failed'}`. -/
def queryExecution (env : WorkerEnv) (tq : String) : WorkerResponse :=
  match innerTry env tq with
  | .ok r => r
  | .error m =>
    ⟨500, .jobj [("success", .jbool false),
      ("error", .jstr (if m = "" then "Query execution failed" else m))]⟩

/-- Which backend `handleQuery` hands a validated trimmed query to, read off
the branch structure of the inner `try`: the SmartSQL binding whenever it is
bound; else the D1 database exactly when it is bound and the query looks like
raw SQL; else none. -/
def usedProvider (env : WorkerEnv) (tq : String) : Option ProviderSelection :=
  match env.ssql with
  | some _ => some .Primary
  | none =>
    match env.db with
    | some _ => if isRawSQL tq then some .Secondary else none
    | none => none

/-- The worker's 400 response for a missing, falsy or non-string `query`
field. -/
def badQueryFieldResp : WorkerResponse :=
  ⟨400, .jobj [("success", .jbool false),
    ("error", .jstr "Request body must contain a \"query\" field with a string value")]⟩

/-- The outer `try`-block of `handleQuery`: parse the request body, read its
`query` field, validate it (falsy or non-string, then empty after trim), and
otherwise run the query through the inner `try`/`catch`. -/
def outerTry (env : WorkerEnv) (reqBody : BodyOutcome) :
    Except String WorkerResponse := do
  let body ← parseJsonE reqBody
  let qF ← getFieldE body "query"
  match qF with
  | some (.jstr s) =>
    if s = "" then .ok badQueryFieldResp
    else
      let tq := jsTrim s
      if tq = "" then
        .ok ⟨400, .jobj [("success", .jbool false),
                         ("error", .jstr "Query cannot be empty")]⟩
      else .ok (queryExecution env tq)
  | _ => .ok badQueryFieldResp

/-- `handleQuery` (worker): the outer `try` with its `catch`, which answers
any request-parsing throw with a 400 `{success:false, error: 'Invalid JSON
in request body'}`. -/
def handleQuery (env : WorkerEnv) (reqBody : BodyOutcome) : WorkerResponse :=
  match outerTry env reqBody with
  | .ok r => r
  | .error _ =>
    ⟨400, .jobj [("success", .jbool false),
                 ("error", .jstr "Invalid JSON in request body")]⟩

/-- The fetch outcome the frontend observes when its request `{query: s}` is
served by the worker: the worker's status and its body, delivered intact. -/
def workerFetch (env : WorkerEnv) (s : String) : FetchOutcome :=
  let r := handleQuery env (.parsed (.jobj [("query", .jstr s)]))
  .resp r.status (.parsed r.body)

/-! ## The dashboard fallback handlers (`src/unnamed/part_004`) -/

/-- The three dashboard metrics. -/
inductive MetricKey where
  | revenue : MetricKey
  | outstanding : MetricKey
  | vatDue : MetricKey
deriving DecidableEq

/-- `DEMO_METRICS` (part_004): the canned metric values. -/
def DEMO_METRICS : MetricKey → JVal
  | .revenue => .jnum 125750
  | .outstanding => .jnum 12
  | .vatDue => .jnum ((37725 : Rat) / 2)

/-- What one `loadMetric` call leaves behind for its key: the metric value
and the error shown (the handler clears `metricsError[key]` on entry and
never sets it afterwards, so a non-`none` value would mean an error was
displayed). -/
structure MetricUpdate where
  value : JVal
  errShown : Option JVal

/-- The `try`-block of `loadMetric` (part_004) once the `runSmartSQL` promise
has resolved to `result`: a truthy `error` field means the canned demo value
with no error state; otherwise the first value of the first result row, demo
when null/undefined.  `Object.keys(null)` throws, landing in the `catch`.
(The extraction models array-shaped `results` fields, the only shape the
providers produce; the `catch` covers everything else the claims touch.) -/
def loadMetricTry (k : MetricKey) (result : JVal) :
    Except String MetricUpdate := do
  let e ← getFieldE result "error"
  if truthyO e then
    .ok ⟨DEMO_METRICS k, none⟩
  else do
    let rs ← getFieldE result "results"
    let value ←
      match rs with
      | some (.jarr (r0 :: _)) =>
        (match r0 with
         | .jnull => Except.error "Cannot convert undefined or null to object"
         | .jobj ((_, v) :: _) => .ok (some v)
         | _ => .ok (none : Option JVal))
      | _ => .ok none
    .ok ⟨jsNullish value (DEMO_METRICS k), none⟩

/-- `loadMetric` (part_004): the `try` above with its `catch`, which also
falls back to the demo value and shows no error. -/
def loadMetric (k : MetricKey) (result : JVal) : MetricUpdate :=
  match loadMetricTry k result with
  | .ok u => u
  | .error _ => ⟨DEMO_METRICS k, none⟩

/-- The five fixed demo result rows of `DEMO_QUERY_RESULTS` (part_004). -/
def demoRows : List JVal :=
  [ .jobj [("id", .jnum 1), ("invoice_number", .jstr "INV-001"),
           ("client_name", .jstr "Acme Corp"),
           ("total_incl_vat", .jnum 11500), ("status", .jstr "paid")],
    .jobj [("id", .jnum 2), ("invoice_number", .jstr "INV-002"),
           ("client_name", .jstr "Tech Solutions"),
           ("total_incl_vat", .jnum 8625), ("status", .jstr "pending")],
    .jobj [("id", .jnum 3), ("invoice_number", .jstr "INV-003"),
           ("client_name", .jstr "Global Trade"),
           ("total_incl_vat", .jnum 23000), ("status", .jstr "paid")],
    .jobj [("id", .jnum 4), ("invoice_number", .jstr "INV-004"),
           ("client_name", .jstr "Local Services"),
           ("total_incl_vat", .jnum 5750), ("status", .jstr "overdue")],
    .jobj [("id", .jnum 5), ("invoice_number", .jstr "INV-005"),
           ("client_name", .jstr "StartUp Inc"),
           ("total_incl_vat", .jnum 17250), ("status", .jstr "pending")] ]

/-- The demo SQL string of `DEMO_QUERY_RESULTS` (part_004). -/
def demoSql : String := "SELECT * FROM invoices ORDER BY created_at DESC LIMIT 5"

/-- The demo-mode SQL banner `handleQuerySubmit` builds from the template
string around the trimmed query. -/
def demoModeSql (tq : String) : String :=
  "-- Demo mode: SmartSQL not configured\n-- Your query: \"" ++ tq ++ "\"\n" ++ demoSql

/-- The object `{...DEMO_QUERY_RESULTS, sql: demoModeSql tq}` that
`handleQuerySubmit` stores as query results in demo mode. -/
def demoSubstitute (tq : String) : JVal :=
  .jobj [("sql", .jstr (demoModeSql tq)), ("results", .jarr demoRows)]

/-- What one `handleQuerySubmit` call leaves behind: the query-results state
and the error state (both cleared on entry). -/
structure QueryViewState where
  queryResults : Option JVal
  errorState : Option JVal

/-- The `try`-block of `handleQuerySubmit` (part_004) once `runSmartSQL` has
resolved to `result`: a truthy `error` field whose text mentions `400` or
`SmartSQL` yields the demo substitution; any other truthy error is set as the
error state; a falsy or absent error stores the result.  `includes` on a
non-string error throws, landing in the `catch`. -/
def handleQuerySubmitTry (tq : String) (result : JVal) :
    Except String QueryViewState := do
  let e ← getFieldE result "error"
  match e with
  | some ev =>
    if truthy ev then
      match ev with
      | .jstr m =>
        if includesStr m "400" || includesStr m "SmartSQL" then
          .ok ⟨some (demoSubstitute tq), none⟩
        else
          .ok ⟨none, some (.jstr m)⟩
      | _ => Except.error "result.error.includes is not a function"
    else .ok ⟨some result, none⟩
  | none => .ok ⟨some result, none⟩

/-- `handleQuerySubmit` (part_004): the `try` above with its `catch`, which
sets the fixed unexpected-error message. -/
def handleQuerySubmit (tq : String) (result : JVal) : QueryViewState :=
  match handleQuerySubmitTry tq result with
  | .ok st => st
  | .error _ => ⟨none, some (.jstr "An unexpected error occurred")⟩

/-! ## The primary-provider request builder (spec-modelled) -/

/-- Modelled from the spec: the Flask `SmartSQLService` request builder for
the Primary (Raindrop Bridge) provider is not under `src/` — only its design
doc (`src/.kiro/specs/raindrop-smartsql-bridge/design.md`, Property 5) and
implementation plan declare it.  Its configuration carries an optional
Primary API key. -/
structure PrimaryRequestConfig where
  apiKey : Option String

/-- Modelled from the spec: the headers the Primary request builder attaches
— always `Content-Type`, and `Authorization: Bearer <key>` exactly when a
Primary API key is configured, omitted entirely otherwise. -/
def bridgeHeaders (cfg : PrimaryRequestConfig) : List (String × String) :=
  ("Content-Type", "application/json") ::
    (match cfg.apiKey with
     | some k => [("Authorization", "Bearer " ++ k)]
     | none => [])

/-- How many headers of the given name a header list carries. -/
def countHeader (hs : List (String × String)) (nm : String) : Nat :=
  (hs.filter (fun h => h.1 == nm)).length

/-! ## Spec-side definitions used for comparison -/

/-- The provider-selection policy as the specification states it, for
comparison against the worker's behaviour: Primary when the primary binding
is configured, else Secondary when the secondary database is configured,
else Unconfigured — a function of the configuration alone, fixed for the
instance's lifetime. -/
def selectProviderSpec (env : WorkerEnv) : ProviderSelection :=
  if env.ssql.isSome then .Primary
  else if env.db.isSome then .Secondary
  else .Unconfigured

/-- The canonical-result invariant of the spec: exactly one of the success
group (`sql` together with the rows under `results`) or the failure group
(`error`) is populated. -/
def canonicalShape (v : JVal) : Bool :=
  (hasField v "sql" && hasField v "results" && !hasField v "error")
  || (hasField v "error" && !hasField v "sql" && !hasField v "results")

/-! ## Theorems -/

/-- **C1.** For every input query (string or not) and every behaviour of the
single outbound fetch — network failure, any HTTP status, unparsable or
arbitrary body — `runSmartSQL` resolves to a value and never rejects: its
result is always `Except.ok`, and the value is either an object carrying an
`error` field (every validation, transport, non-2xx and parse-failure path)
or, on a 2xx status with a parsable body, the provider's success body
returned verbatim. -/
theorem C1_runSmartSQL_never_throws (q : JSVal) (o : FetchOutcome) :
    ∃ v, (runSmartSQL q o).result = Except.ok v ∧
      ((errField v).isSome = true ∨
        ∃ st b, o = FetchOutcome.resp st (.parsed b) ∧ respOk st = true ∧ v = b) := by
  unfold runSmartSQL
  by_cases hq : isValidStringInput q = true
  · refine ⟨handleRequest o, by simp [hq], ?_⟩
    unfold handleRequest handleRequestTry
    cases o with
    | throwErr m => exact Or.inl rfl
    | resp st body =>
      by_cases hok : respOk st = true
      · cases body with
        | parseErr m => exact Or.inl (by simp [hok, parseJsonE, errField, errObj, lookupField])
        | parsed b => exact Or.inr ⟨st, b, rfl, hok, by simp [hok, parseJsonE]⟩
      · cases body with
        | parseErr m =>
          exact Or.inl (by
            simp [hok, parseJsonE, errField, errObj, lookupField, Bind.bind, Except.bind])
        | parsed data =>
          refine Or.inl ?_
          cases data <;>
            simp [hok, parseJsonE, getFieldE, errField, errObj, lookupField,
              Bind.bind, Except.bind]
  · exact ⟨errObj "Query cannot be empty", by simp [hq],
      Or.inl (by simp [errField, errObj, lookupField])⟩

/-- **C2.** For every input that is not a string, or is a string empty after
trimming, `runSmartSQL` returns `{error: "Query cannot be empty"}` and makes
zero outbound fetch calls, whatever the network would have done. -/
theorem C2_empty_input_no_network (q : JSVal) (o : FetchOutcome)
    (h : (∀ s, q ≠ .jv (.jstr s)) ∨ ∃ s, q = .jv (.jstr s) ∧ jsTrim s = "") :
    runSmartSQL q o = ⟨.ok (errObj "Query cannot be empty"), 0⟩ := by
  have hv : isValidStringInput q = false := by
    rcases h with h | ⟨s, rfl, hs⟩
    · cases q with
      | undef => rfl
      | jv v =>
        cases v with
        | jstr s => exact absurd rfl (h s)
        | jnull => rfl
        | jbool b => rfl
        | jnum n => rfl
        | jarr xs => rfl
        | jobj fs => rfl
    · simp [isValidStringInput, hs]
  simp [runSmartSQL, hv]

/-- Witness for C2 at the spec's Scenario B: the whitespace query. -/
theorem C2_empty_input_no_network_witness :
    runSmartSQL (.jv (.jstr "   ")) (.throwErr "unreachable")
      = ⟨.ok (errObj "Query cannot be empty"), 0⟩ :=
  C2_empty_input_no_network _ _ (Or.inr ⟨"   ", rfl, by decide⟩)

/-- **C3.** For every valid query and every 2xx provider response whose body
is `{"success":true,"sql":S,"results":R}`, `runSmartSQL` returns that body
verbatim: its `sql` field is the same `S` and its `results` field is the very
list `R`, element for element, with no coercion of values. -/
theorem C3_success_body_passthrough (q : JSVal) (st : Nat) (S : String)
    (R : List JVal) (hq : isValidStringInput q = true) (hst : respOk st = true) :
    (runSmartSQL q (.resp st (.parsed (.jobj [("success", .jbool true),
        ("sql", .jstr S), ("results", .jarr R)])))).result
      = .ok (.jobj [("success", .jbool true), ("sql", .jstr S),
          ("results", .jarr R)])
    ∧ lookupField [("success", .jbool true), ("sql", .jstr S),
        ("results", .jarr R)] "sql" = some (.jstr S)
    ∧ lookupField [("success", .jbool true), ("sql", .jstr S),
        ("results", .jarr R)] "results" = some (.jarr R) := by
  refine ⟨?_, ?_, ?_⟩
  · simp [runSmartSQL, hq, handleRequest, handleRequestTry, hst, parseJsonE]
  · simp [lookupField]
  · simp [lookupField]

/-- Witness for C3 at the spec's Scenario A. -/
theorem C3_success_body_passthrough_witness :
    (runSmartSQL (.jv (.jstr "Show me all invoices")) (.resp 200 (.parsed
        (.jobj [("success", .jbool true),
                ("sql", .jstr "SELECT * FROM invoices"),
                ("results", .jarr [.jobj [("id", .jnum 1)]])])))).result
      = .ok (.jobj [("success", .jbool true),
                    ("sql", .jstr "SELECT * FROM invoices"),
                    ("results", .jarr [.jobj [("id", .jnum 1)]])])
    ∧ lookupField [("success", .jbool true),
        ("sql", .jstr "SELECT * FROM invoices"),
        ("results", .jarr [.jobj [("id", .jnum 1)]])] "sql"
        = some (.jstr "SELECT * FROM invoices")
    ∧ lookupField [("success", .jbool true),
        ("sql", .jstr "SELECT * FROM invoices"),
        ("results", .jarr [.jobj [("id", .jnum 1)]])] "results"
        = some (.jarr [.jobj [("id", .jnum 1)]]) :=
  C3_success_body_passthrough _ _ _ _ (by decide) (by decide)

/-- **C4, counterexample.** The claim says an HTTP 500 with body `{}` yields
the error message `"Request failed with status 500"`; the code synthesizes
the fixed message `"Request failed"` without the status code. -/
theorem C4_counterexample :
    (runSmartSQL (.jv (.jstr "Show me all invoices"))
        (.resp 500 (.parsed (.jobj [])))).result
      = .ok (errObj "Request failed")
    ∧ errObj "Request failed" ≠ errObj "Request failed with status 500" := by
  constructor
  · rfl
  · simp [errObj]

/-- **C4, amended.** For every valid query and every 4xx/5xx response whose
body parses to an object, `runSmartSQL` returns a result carrying an `error`
field and never throws; a truthy `error` field of the body is used verbatim
as that result's error value, and otherwise the fixed message
`"Request failed"` — without the numeric status code — is synthesized. -/
theorem C4_amended_http_failure (q : JSVal) (st : Nat)
    (fs : List (String × JVal)) (hq : isValidStringInput q = true)
    (hst : respOk st = false) :
    (∃ v, (runSmartSQL q (.resp st (.parsed (.jobj fs)))).result = .ok v ∧
        (errField v).isSome = true)
    ∧ (∀ e, lookupField fs "error" = some e → truthy e = true →
        (runSmartSQL q (.resp st (.parsed (.jobj fs)))).result
          = .ok (.jobj [("error", e)]))
    ∧ (truthyO (lookupField fs "error") = false →
        (runSmartSQL q (.resp st (.parsed (.jobj fs)))).result
          = .ok (errObj "Request failed")) := by
  refine ⟨?_, ?_, ?_⟩
  · refine ⟨.jobj [("error", jsOr (lookupField fs "error") (.jstr "Request failed"))], ?_, ?_⟩
    · simp [runSmartSQL, hq, handleRequest, handleRequestTry, hst, parseJsonE,
        getFieldE, Bind.bind, Except.bind]
    · simp [errField, lookupField]
  · intro e he ht
    simp [runSmartSQL, hq, handleRequest, handleRequestTry, hst, parseJsonE,
      getFieldE, Bind.bind, Except.bind, he, jsOr, ht]
  · intro hf
    cases hl : lookupField fs "error" with
    | none =>
      simp [runSmartSQL, hq, handleRequest, handleRequestTry, hst, parseJsonE,
        getFieldE, Bind.bind, Except.bind, hl, jsOr, errObj]
    | some e =>
      rw [hl] at hf
      simp only [truthyO] at hf
      simp [runSmartSQL, hq, handleRequest, handleRequestTry, hst, parseJsonE,
        getFieldE, Bind.bind, Except.bind, hl, jsOr, hf, errObj]

/-- Witness for C4 (amended) at HTTP 500 with body
`{"error":"Internal server error"}` and with body `{}`. -/
theorem C4_amended_http_failure_witness :
    ((∃ v, (runSmartSQL (.jv (.jstr "Show me all invoices"))
        (.resp 500 (.parsed (.jobj [("error", .jstr "Internal server error")])))).result
          = .ok v ∧ (errField v).isSome = true)
      ∧ (∀ e, lookupField [("error", .jstr "Internal server error")] "error" = some e →
          truthy e = true →
          (runSmartSQL (.jv (.jstr "Show me all invoices"))
            (.resp 500 (.parsed (.jobj [("error", .jstr "Internal server error")])))).result
            = .ok (.jobj [("error", e)]))
      ∧ (truthyO (lookupField [("error", .jstr "Internal server error")] "error") = false →
          (runSmartSQL (.jv (.jstr "Show me all invoices"))
            (.resp 500 (.parsed (.jobj [("error", .jstr "Internal server error")])))).result
            = .ok (errObj "Request failed"))) :=
  C4_amended_http_failure _ _ _ (by decide) (by decide)

/-- **C5, counterexample.** The claim says an HTTP 200 with an unparsable
body yields the error `"unexpected response shape"`; the code's catch block
yields `"Network error: <parse failure message>"` instead. -/
theorem C5_counterexample :
    (runSmartSQL (.jv (.jstr "Show me all invoices"))
        (.resp 200 (.parseErr "Unexpected token < in JSON"))).result
      = .ok (errObj "Network error: Unexpected token < in JSON")
    ∧ errObj "Network error: Unexpected token < in JSON"
        ≠ errObj "unexpected response shape" := by
  constructor
  · rfl
  · simp [errObj]

/-- **C5, amended.** For every valid query and 2xx status: an unparsable body
yields `{error: "Network error: <parse failure message>"}` (no
`"unexpected response shape"` message exists), and a body that parses is
returned verbatim whatever its shape — no shape check is performed. -/
theorem C5_amended_unparsable_body (q : JSVal) (st : Nat) (m : String)
    (v : JVal) (hq : isValidStringInput q = true) (hst : respOk st = true) :
    (runSmartSQL q (.resp st (.parseErr m))).result
      = .ok (errObj ("Network error: " ++ m))
    ∧ (runSmartSQL q (.resp st (.parsed v))).result = .ok v := by
  constructor
  · simp [runSmartSQL, hq, handleRequest, handleRequestTry, hst, parseJsonE]
  · simp [runSmartSQL, hq, handleRequest, handleRequestTry, hst, parseJsonE]

/-- Witness for C5 (amended) at a 200 with an unparsable body and a 200 with
a shapeless parsed body. -/
theorem C5_amended_unparsable_body_witness :
    (runSmartSQL (.jv (.jstr "Show me all invoices"))
        (.resp 200 (.parseErr "Unexpected end of JSON input"))).result
      = .ok (errObj "Network error: Unexpected end of JSON input")
    ∧ (runSmartSQL (.jv (.jstr "Show me all invoices"))
        (.resp 200 (.parsed (.jobj [("surprise", .jnum 1)])))).result
      = .ok (.jobj [("surprise", .jnum 1)]) :=
  C5_amended_unparsable_body _ _ _ _ (by decide) (by decide)

/-- An environment with no SmartSQL binding and a configured D1 database,
whose statements all succeed with an empty result set. -/
def envDbOnly : WorkerEnv :=
  ⟨none, some (fun _ => .ok (.jobj [("results", .jarr [])]))⟩

/-- **C6, counterexample.** Under the claim's first-match policy the
environment with only the secondary database configured selects `Secondary`,
and every call should then use that provider; but the worker hands
`"SELECT 1"` to the secondary database while `"Show me all invoices"` uses
no provider at all — the choice is made per call from the query text, not
once from configuration. -/
theorem C6_counterexample :
    selectProviderSpec envDbOnly = ProviderSelection.Secondary
    ∧ usedProvider envDbOnly "SELECT 1" = some ProviderSelection.Secondary
    ∧ usedProvider envDbOnly "Show me all invoices" = none
    ∧ some ProviderSelection.Secondary ≠ (none : Option ProviderSelection) := by
  refine ⟨rfl, by decide, by decide, by simp⟩

/-- **C6, amended.** The worker decides the backend per request from the
immutable environment rather than once at construction: whenever the
SmartSQL binding is configured, every call uses it (Primary) regardless of
the query; when it is not, the secondary database serves exactly the calls
whose query looks like raw SQL and only when a database is configured — all
other calls use no provider. -/
theorem C6_amended_provider_policy (env : WorkerEnv) :
    (env.ssql.isSome = true →
      ∀ tq, usedProvider env tq = some ProviderSelection.Primary)
    ∧ (env.ssql = none → ∀ tq,
        (usedProvider env tq = some ProviderSelection.Secondary
          ↔ (env.db.isSome = true ∧ isRawSQL tq = true))) := by
  constructor
  · intro h tq
    cases hs : env.ssql with
    | none => rw [hs] at h; simp at h
    | some run => simp [usedProvider, hs]
  · intro h tq
    cases hd : env.db with
    | none => simp [usedProvider, h, hd]
    | some dbrun =>
      by_cases hr : isRawSQL tq = true
      · simp [usedProvider, h, hd, hr]
      · simp [usedProvider, h, hd, hr]

/-- Witness for C6 (amended): with the binding configured a natural-language
call uses Primary; without it, `"SELECT 1"` is characterized by the raw-SQL
check. -/
theorem C6_amended_provider_policy_witness :
    usedProvider ⟨some (fun _ => CallOutcome.ok JVal.jnull), none⟩
        "Show me all invoices" = some ProviderSelection.Primary
    ∧ (usedProvider ⟨none, (none : Option (String → CallOutcome))⟩ "SELECT 1"
          = some ProviderSelection.Secondary
        ↔ ((none : Option (String → CallOutcome)).isSome = true
            ∧ isRawSQL "SELECT 1" = true)) :=
  ⟨(C6_amended_provider_policy
      ⟨some (fun _ => CallOutcome.ok JVal.jnull), none⟩).1 rfl _,
   (C6_amended_provider_policy ⟨none, none⟩).2 rfl _⟩

/-- **C7.** (Spec-modelled: the Primary request builder lives in the Flask
`SmartSQLService`, which is not under `src/`.)  When a Primary API key is
configured the built request carries exactly one `Authorization` header and
its value is `Bearer <key>`; with no key configured no `Authorization`
header is present at all.  The frontend's own `createPostOptions` likewise
never attaches an `Authorization` header. -/
theorem C7_authorization_header :
    (∀ (cfg : PrimaryRequestConfig) (k : String), cfg.apiKey = some k →
        countHeader (bridgeHeaders cfg) "Authorization" = 1
        ∧ (bridgeHeaders cfg).filter (fun h => h.1 == "Authorization")
            = [("Authorization", "Bearer " ++ k)])
    ∧ (∀ cfg : PrimaryRequestConfig, cfg.apiKey = none →
        countHeader (bridgeHeaders cfg) "Authorization" = 0)
    ∧ ∀ b : JVal, countHeader (createPostOptions b).headers "Authorization" = 0 := by
  refine ⟨?_, ?_, ?_⟩
  · intro cfg k hk
    constructor
    · simp [bridgeHeaders, hk, countHeader]
    · simp [bridgeHeaders, hk]
  · intro cfg hk
    simp [bridgeHeaders, hk, countHeader]
  · intro b
    simp [createPostOptions, countHeader]

/-- Witness for C7 with the key `"secret"` configured, with no key, and for
the frontend options builder. -/
theorem C7_authorization_header_witness :
    (countHeader (bridgeHeaders ⟨some "secret"⟩) "Authorization" = 1
      ∧ (bridgeHeaders ⟨some "secret"⟩).filter (fun h => h.1 == "Authorization")
          = [("Authorization", "Bearer " ++ "secret")])
    ∧ countHeader (bridgeHeaders ⟨none⟩) "Authorization" = 0
    ∧ countHeader (createPostOptions (.jobj [("query", .jstr "hi")])).headers
        "Authorization" = 0 :=
  ⟨C7_authorization_header.1 ⟨some "secret"⟩ "secret" rfl,
   C7_authorization_header.2.1 ⟨none⟩ rfl,
   C7_authorization_header.2.2 _⟩

/-- **C10.** With no SmartSQL binding configured, the worker hands a
non-empty trimmed query to the secondary D1 database only if the query
starts, case-insensitively, with one of the raw-SQL keywords; every other
non-empty query gets the 400 not-configured response, whose body is
`success:false` with the error `"SmartSQL binding not configured. Natural
language queries require SmartSQL."` — natural-language queries never
execute on the fallback path. -/
theorem C10_fallback_raw_sql_only (db : Option (String → CallOutcome))
    (s : String) (hs : jsTrim s ≠ "") :
    (usedProvider ⟨none, db⟩ (jsTrim s) = some ProviderSelection.Secondary →
        isRawSQL (jsTrim s) = true)
    ∧ (isRawSQL (jsTrim s) = false →
        handleQuery ⟨none, db⟩ (.parsed (.jobj [("query", .jstr s)]))
          = notConfiguredResp)
    ∧ notConfiguredResp.status = 400
    ∧ (∃ fs, notConfiguredResp.body = .jobj fs
        ∧ lookupField fs "success" = some (.jbool false)
        ∧ lookupField fs "error" = some (.jstr
            "SmartSQL binding not configured. Natural language queries require SmartSQL.")) := by
  refine ⟨?_, ?_, rfl, ?_⟩
  · intro h
    cases db with
    | none => simp [usedProvider] at h
    | some dbrun =>
      by_cases hr : isRawSQL (jsTrim s) = true
      · exact hr
      · simp [usedProvider, hr] at h
  · intro hr
    have hs' : s ≠ "" := fun h => hs (by rw [h]; rfl)
    unfold handleQuery outerTry
    simp [parseJsonE, getFieldE, lookupField, Bind.bind, Except.bind, hs', hs]
    cases db with
    | none => simp [queryExecution, innerTry]
    | some dbrun => simp [queryExecution, innerTry, hr]
  · exact ⟨_, rfl, by simp [lookupField], by simp [lookupField]⟩

/-- Witness for C10: no database bound, a natural-language query. -/
theorem C10_fallback_raw_sql_only_witness :
    (usedProvider ⟨none, none⟩ (jsTrim "show all invoices")
        = some ProviderSelection.Secondary →
      isRawSQL (jsTrim "show all invoices") = true)
    ∧ (isRawSQL (jsTrim "show all invoices") = false →
        handleQuery ⟨none, none⟩
          (.parsed (.jobj [("query", .jstr "show all invoices")]))
          = notConfiguredResp)
    ∧ notConfiguredResp.status = 400
    ∧ (∃ fs, notConfiguredResp.body = .jobj fs
        ∧ lookupField fs "success" = some (.jbool false)
        ∧ lookupField fs "error" = some (.jstr
            "SmartSQL binding not configured. Natural language queries require SmartSQL.")) :=
  C10_fallback_raw_sql_only none "show all invoices" (by decide)

/-- Inversion for the worker's inner `try`/`catch` branches: a response the
inner `try` produces without throwing is either the not-configured 400 or a
200 whose body is the success object with `sql`, `results` and `metadata`
fields. -/
theorem innerTry_inv (env : WorkerEnv) (tq : String) (r : WorkerResponse)
    (h : innerTry env tq = .ok r) :
    r = notConfiguredResp
    ∨ ∃ a b, r = ⟨200, .jobj [("success", .jbool true), ("sql", a),
        ("results", b), ("metadata", metaObj tq)]⟩ := by
  obtain ⟨ssqlO, dbO⟩ := env
  cases ssqlO with
  | some run =>
    simp only [innerTry, runSSQLBranch] at h
    cases hrun : run tq with
    | err m => rw [hrun] at h; exact absurd h (by simp)
    | ok res =>
      rw [hrun] at h
      cases res <;>
        simp [getFieldE, Bind.bind, Except.bind] at h <;>
        exact Or.inr ⟨_, _, h.symm⟩
  | none =>
    cases dbO with
    | none => simp only [innerTry] at h; simp at h; exact Or.inl h.symm
    | some dbrun =>
      simp only [innerTry] at h
      by_cases hr : isRawSQL tq = true
      · rw [if_pos hr] at h
        unfold runD1Branch at h
        cases hrun : dbrun tq with
        | err m => rw [hrun] at h; exact absurd h (by simp)
        | ok qr =>
          rw [hrun] at h
          cases qr <;>
            simp [getFieldE, Bind.bind, Except.bind] at h <;>
            exact Or.inr ⟨_, _, h.symm⟩
      · rw [if_neg hr] at h; simp at h; exact Or.inl h.symm

/-- The inner `try`/`catch` only answers 2xx through the success branches:
whenever `queryExecution` yields an HTTP-success status, its body carries
`sql` and `results` and no `error`. -/
theorem queryExecution_ok_shape (env : WorkerEnv) (tq : String)
    (h : respOk (queryExecution env tq).status = true) :
    hasField (queryExecution env tq).body "sql" = true
    ∧ hasField (queryExecution env tq).body "results" = true
    ∧ hasField (queryExecution env tq).body "error" = false := by
  unfold queryExecution at h ⊢
  cases hi : innerTry env tq with
  | error m =>
    rw [hi] at h
    exact absurd (show respOk 500 = true from h) (by decide)
  | ok r =>
    rw [hi] at h
    have h' : respOk r.status = true := h
    rcases innerTry_inv env tq r hi with rfl | ⟨a, b, rfl⟩
    · exact absurd h' (by simp [respOk, notConfiguredResp])
    · exact ⟨by simp [hasField, lookupField], by simp [hasField, lookupField],
        by simp [hasField, lookupField]⟩

/-- Inversion for the worker's outer `try`: a response it produces without
throwing is a 400 (validation) or comes from `queryExecution` on the trimmed
query. -/
theorem outerTry_inv (env : WorkerEnv) (rb : BodyOutcome) (r : WorkerResponse)
    (h : outerTry env rb = .ok r) :
    r.status = 400 ∨ ∃ tq, r = queryExecution env tq := by
  unfold outerTry at h
  cases rb with
  | parseErr m => simp [parseJsonE, Bind.bind, Except.bind] at h
  | parsed body =>
    cases body with
    | jnull => simp [parseJsonE, getFieldE, Bind.bind, Except.bind] at h
    | jobj fs =>
      simp only [parseJsonE, getFieldE, Bind.bind, Except.bind] at h
      rcases hq : lookupField fs "query" with _ | v
      · rw [hq] at h; simp at h; left; rw [← h]; rfl
      · rw [hq] at h
        cases v with
        | jstr s =>
          by_cases hse : s = ""
          · subst hse; simp at h; left; rw [← h]; rfl
          · by_cases hte : jsTrim s = ""
            · simp [hse, hte] at h; left; rw [← h]
            · simp [hse, hte] at h; right; exact ⟨jsTrim s, h.symm⟩
        | jnull => simp at h; left; rw [← h]; rfl
        | jbool c => simp at h; left; rw [← h]; rfl
        | jnum n => simp at h; left; rw [← h]; rfl
        | jarr xs => simp at h; left; rw [← h]; rfl
        | jobj gs => simp at h; left; rw [← h]; rfl
    | jbool c =>
      simp [parseJsonE, getFieldE, Bind.bind, Except.bind] at h
      left; rw [← h]; rfl
    | jnum n =>
      simp [parseJsonE, getFieldE, Bind.bind, Except.bind] at h
      left; rw [← h]; rfl
    | jstr s =>
      simp [parseJsonE, getFieldE, Bind.bind, Except.bind] at h
      left; rw [← h]; rfl
    | jarr xs =>
      simp [parseJsonE, getFieldE, Bind.bind, Except.bind] at h
      left; rw [← h]; rfl

/-- Whenever the worker answers with an HTTP-success status, the body is the
success shape: `sql` and `results` present, no `error`. -/
theorem handleQuery_ok_shape (env : WorkerEnv) (rb : BodyOutcome)
    (h : respOk (handleQuery env rb).status = true) :
    hasField (handleQuery env rb).body "sql" = true
    ∧ hasField (handleQuery env rb).body "results" = true
    ∧ hasField (handleQuery env rb).body "error" = false := by
  unfold handleQuery at h ⊢
  cases ho : outerTry env rb with
  | error m =>
    rw [ho] at h
    exact absurd (show respOk 400 = true from h) (by decide)
  | ok r =>
    rw [ho] at h
    have h' : respOk r.status = true := h
    rcases outerTry_inv env rb r ho with h400 | ⟨tq, rfl⟩
    · rw [h400] at h'; exact absurd h' (by decide)
    · exact queryExecution_ok_shape env tq h'

/-- **C8.** Every result the execute operation returns — for any input, with
the fetch either failing at the network or served by the worker — satisfies
the canonical-result invariant: exactly one of the success group
(`sql` + rows under `results`) or the failure group (`error`) is populated,
never both and never neither. -/
theorem C8_canonical_result (q : JSVal) (o : FetchOutcome)
    (h : (∃ m, o = .throwErr m) ∨ ∃ env s, o = workerFetch env s) :
    ∃ v, (runSmartSQL q o).result = .ok v ∧ canonicalShape v = true := by
  by_cases hq : isValidStringInput q = true
  · rcases h with ⟨m, rfl⟩ | ⟨env, s, rfl⟩
    · refine ⟨errObj ("Network error: " ++ m),
        by simp [runSmartSQL, hq, handleRequest, handleRequestTry], ?_⟩
      simp [canonicalShape, hasField, errObj, lookupField]
    · unfold workerFetch
      by_cases hok : respOk (handleQuery env (.parsed (.jobj [("query", .jstr s)]))).status = true
      · refine ⟨(handleQuery env (.parsed (.jobj [("query", .jstr s)]))).body,
          by simp [runSmartSQL, hq, handleRequest, handleRequestTry, hok, parseJsonE], ?_⟩
        obtain ⟨h1, h2, h3⟩ := handleQuery_ok_shape env (.parsed (.jobj [("query", .jstr s)])) hok
        simp [canonicalShape, h1, h2, h3]
      · cases hb : (handleQuery env (.parsed (.jobj [("query", .jstr s)]))).body with
        | jnull =>
          refine ⟨errObj ("Network error: " ++ "Cannot read properties of null"), ?_, ?_⟩
          · simp [runSmartSQL, hq, handleRequest, handleRequestTry, hok, parseJsonE,
              hb, getFieldE, Bind.bind, Except.bind]
          · simp [canonicalShape, hasField, errObj, lookupField]
        | jobj fs =>
          refine ⟨.jobj [("error", jsOr (lookupField fs "error") (.jstr "Request failed"))], ?_, ?_⟩
          · simp [runSmartSQL, hq, handleRequest, handleRequestTry, hok, parseJsonE,
              hb, getFieldE, Bind.bind, Except.bind]
          · simp [canonicalShape, hasField, lookupField]
        | jbool c =>
          refine ⟨.jobj [("error", jsOr none (.jstr "Request failed"))], ?_, ?_⟩
          · simp [runSmartSQL, hq, handleRequest, handleRequestTry, hok, parseJsonE,
              hb, getFieldE, Bind.bind, Except.bind]
          · simp [canonicalShape, hasField, lookupField]
        | jnum n =>
          refine ⟨.jobj [("error", jsOr none (.jstr "Request failed"))], ?_, ?_⟩
          · simp [runSmartSQL, hq, handleRequest, handleRequestTry, hok, parseJsonE,
              hb, getFieldE, Bind.bind, Except.bind]
          · simp [canonicalShape, hasField, lookupField]
        | jstr t =>
          refine ⟨.jobj [("error", jsOr none (.jstr "Request failed"))], ?_, ?_⟩
          · simp [runSmartSQL, hq, handleRequest, handleRequestTry, hok, parseJsonE,
              hb, getFieldE, Bind.bind, Except.bind]
          · simp [canonicalShape, hasField, lookupField]
        | jarr xs =>
          refine ⟨.jobj [("error", jsOr none (.jstr "Request failed"))], ?_, ?_⟩
          · simp [runSmartSQL, hq, handleRequest, handleRequestTry, hok, parseJsonE,
              hb, getFieldE, Bind.bind, Except.bind]
          · simp [canonicalShape, hasField, lookupField]
  · refine ⟨errObj "Query cannot be empty", by simp [runSmartSQL, hq], by decide⟩

/-- Witness for C8: an unconfigured worker serving a natural-language
query. -/
theorem C8_canonical_result_witness :
    ∃ v, (runSmartSQL (.jv (.jstr "Show me all invoices"))
        (workerFetch ⟨none, none⟩ "Show me all invoices")).result = .ok v
      ∧ canonicalShape v = true :=
  C8_canonical_result _ _ (Or.inr ⟨⟨none, none⟩, "Show me all invoices", rfl⟩)

/-- **C9.** The dashboard substitutes canned demo data instead of surfacing
provider errors: every metric load whose result carries a truthy `error`
field stores the fixed demo metric value and shows no error; and every
submitted query whose error message mentions `400` or `SmartSQL` stores the
demo rows and demo-mode SQL as the query results, leaving the error state
unset. -/
theorem C9_demo_data_substitution :
    (∀ (k : MetricKey) (res : JVal) (e : JVal),
        getFieldE res "error" = .ok (some e) → truthy e = true →
        loadMetric k res = ⟨DEMO_METRICS k, none⟩)
    ∧ (∀ (tq : String) (res : JVal) (m : String),
        getFieldE res "error" = .ok (some (.jstr m)) → m ≠ "" →
        (includesStr m "400" || includesStr m "SmartSQL") = true →
        handleQuerySubmit tq res = ⟨some (demoSubstitute tq), none⟩) := by
  constructor
  · intro k res e he ht
    unfold loadMetric loadMetricTry
    simp [he, Bind.bind, Except.bind, truthyO, ht]
  · intro tq res m he hm hi
    unfold handleQuerySubmit handleQuerySubmitTry
    simp [he, Bind.bind, Except.bind, truthy, hm, hi]

/-- Witness for C9: a metric load failing with `"Request failed"` and a
query submission failing with the worker's not-configured message. -/
theorem C9_demo_data_substitution_witness :
    loadMetric MetricKey.revenue (errObj "Request failed")
      = ⟨DEMO_METRICS MetricKey.revenue, none⟩
    ∧ handleQuerySubmit "show my invoices"
        (errObj "SmartSQL binding not configured. Natural language queries require SmartSQL.")
      = ⟨some (demoSubstitute "show my invoices"), none⟩ :=
  ⟨C9_demo_data_substitution.1 MetricKey.revenue _ _ rfl (by decide),
   C9_demo_data_substitution.2 "show my invoices" _ _ rfl (by decide) (by decide)⟩

end SmartBiz
